import Mathlib

/-!
Shallow embedding of the doksAI client core: the conversation store
(src/store/index.ts and its extended variant with queryRAG/streamResponse)
and the API health monitor (src/store/apiStatus.ts).

JavaScript strings are modelled as List Char (named Str below), so that the
word-splitting performed by streamResponse (text.split(' ')) is List.splitOn
and all operations stay executable and decidable.  Timestamps (new Date())
are modelled as an explicit Nat parameter threaded into every mutating
operation.  The pinia-reactive record of sessions is modelled as an
association list with JavaScript object semantics: assignment replaces the
binding of an existing key in place, delete removes it.  Network calls are
modelled by passing the outcome of the external API call as an explicit
argument (a value for a resolved promise, a thrown-error marker for a
rejected one); the store code that consumes the outcome is translated
line by line from the source.
-/

abbrev Str := List Char

/-! ### Association-list map with JavaScript Record semantics -/

/-- Lookup in an association list: first binding of the key, if any
(models reading sessions.value[sessionId]). -/
def alookup {β : Type} : List (Str × β) → Str → Option β
  | [], _ => none
  | (k, v) :: t, k' => if k = k' then some v else alookup t k'

/-- Assignment sessions.value[k] = v: replaces the binding of an existing
key in place, otherwise appends a new binding. -/
def ainsert {β : Type} : List (Str × β) → Str → β → List (Str × β)
  | [], k, v => [(k, v)]
  | (k', v') :: t, k, v => if k' = k then (k, v) :: t else (k', v') :: ainsert t k v

/-- Deletion delete sessions.value[k]: removes the binding of the key. -/
def aerase {β : Type} : List (Str × β) → Str → List (Str × β)
  | [], _ => []
  | (k', v') :: t, k => if k' = k then aerase t k else (k', v') :: aerase t k

/-! ### Data model (src/store/types.ts) -/

/-- QuerySource from src/store/types.ts / src/services/api.ts.  The float
score is modelled as an exact rational: the store only copies scores, it
never computes with them. -/
structure QuerySource where
  doc_id : Str
  page : Int
  chunk_id : Str
  text : Str
  score : Rat
deriving DecidableEq

/-- Message from src/store/types.ts (the variant with sources/confidence).
Optional fields are Option; confidence (a float in the source) is an exact
rational, copied but never computed with. -/
structure Message where
  id : Nat
  content : Str
  isUser : Bool
  timestamp : Nat
  isStreaming : Option Bool := none
  sources : Option (List QuerySource) := none
  confidence : Option Rat := none
deriving DecidableEq

/-- ChatSession from src/store/types.ts. -/
structure ChatSession where
  id : Str
  messages : List Message
  createdAt : Nat
  updatedAt : Nat
deriving DecidableEq

/-- The reactive state of the chat store (sessions, currentSessionId,
isLoading refs in src/store/index.ts). -/
structure ChatStore where
  sessions : List (Str × ChatSession)
  currentSessionId : Option Str
  isLoading : Bool
deriving DecidableEq

/-- The empty initial store state. -/
def ChatStore.init : ChatStore := { sessions := [], currentSessionId := none, isLoading := false }

/-- Payload of addMessage: a Message without its id (Omit Message id). -/
structure NewMessage where
  content : Str
  isUser : Bool
  timestamp : Nat
  isStreaming : Option Bool := none
  sources : Option (List QuerySource) := none
  confidence : Option Rat := none
deriving DecidableEq

/-- Payload of updateMessage: Partial Message.  An outer none means the
field is absent from the update object; an inner Option mirrors a field
that is itself optional on Message (so some none assigns undefined). -/
structure MessageUpdate where
  id : Option Nat := none
  content : Option Str := none
  isUser : Option Bool := none
  timestamp : Option Nat := none
  isStreaming : Option (Option Bool) := none
  sources : Option (Option (List QuerySource)) := none
  confidence : Option (Option Rat) := none
deriving DecidableEq

/-- Object.assign(message, updates): fields present in the update replace
the message's fields. -/
def applyUpdate (m : Message) (u : MessageUpdate) : Message :=
  { id := u.id.getD m.id
    content := u.content.getD m.content
    isUser := u.isUser.getD m.isUser
    timestamp := u.timestamp.getD m.timestamp
    isStreaming := u.isStreaming.getD m.isStreaming
    sources := u.sources.getD m.sources
    confidence := u.confidence.getD m.confidence }

/-! ### Store operations (src/store/index.ts, src/unnamed/part_010) -/

/-- JavaScript truthiness of an optional string: undefined and the empty
string are falsy (the if (initialMessage) guard in createSession). -/
def strTruthy : Option Str → Bool
  | none => false
  | some s => s ≠ []

/-- createSession(initialMessage?).  The uuid produced by generateSessionId
is passed in as sessionId, and new Date() as now.  Returns the updated
store and the returned session id. -/
def createSession (st : ChatStore) (sessionId : Str) (now : Nat)
    (initialMessage : Option Str) : ChatStore × Str :=
  let base : ChatSession := { id := sessionId, messages := [], createdAt := now, updatedAt := now }
  let newSession : ChatSession :=
    if strTruthy initialMessage then
      { base with messages := [{ id := 0, content := initialMessage.getD [],
                                 isUser := true, timestamp := now }] }
    else base
  ({ st with sessions := ainsert st.sessions sessionId newSession,
             currentSessionId := some sessionId }, sessionId)

/-- setCurrentSession(sessionId): only switches when the session exists. -/
def setCurrentSession (st : ChatStore) (sessionId : Str) : ChatStore :=
  if (alookup st.sessions sessionId).isSome then
    { st with currentSessionId := some sessionId }
  else st

/-- addMessage(sessionId, message): appends with id = session.messages.length
and refreshes updatedAt; no-op when the session does not exist.  The
assigned id (the observable effect of the append) is returned alongside. -/
def addMessage (st : ChatStore) (sessionId : Str) (message : NewMessage)
    (now : Nat) : ChatStore × Option Nat :=
  match alookup st.sessions sessionId with
  | none => (st, none)
  | some session =>
      let newMessage : Message :=
        { id := session.messages.length, content := message.content,
          isUser := message.isUser, timestamp := message.timestamp,
          isStreaming := message.isStreaming, sources := message.sources,
          confidence := message.confidence }
      let session2 : ChatSession :=
        { session with messages := session.messages ++ [newMessage], updatedAt := now }
      ({ st with sessions := ainsert st.sessions sessionId session2 }, some newMessage.id)

/-- Replaces the first list element satisfying p by its image under f
(models messages.findIndex + in-place Object.assign). -/
def updateFirst {α : Type} (p : α → Bool) (f : α → α) : List α → List α
  | [] => []
  | x :: xs => if p x then f x :: xs else x :: updateFirst p f xs

/-- updateMessage(sessionId, messageId, updates): merges updates into the
first message with that id and refreshes updatedAt; no-op when the session
or the message does not exist. -/
def updateMessage (st : ChatStore) (sessionId : Str) (messageId : Nat)
    (updates : MessageUpdate) (now : Nat) : ChatStore :=
  match alookup st.sessions sessionId with
  | none => st
  | some session =>
      if (session.messages.find? (fun m => m.id == messageId)).isSome then
        let session2 : ChatSession :=
          { session with
              messages := updateFirst (fun m => m.id == messageId)
                (fun m => applyUpdate m updates) session.messages,
              updatedAt := now }
        { st with sessions := ainsert st.sessions sessionId session2 }
      else st

/-- clearSession(sessionId): removes the session if present; if it was the
current one, the current-session pointer becomes none. -/
def clearSession (st : ChatStore) (sessionId : Str) : ChatStore :=
  if (alookup st.sessions sessionId).isSome then
    { st with sessions := aerase st.sessions sessionId,
              currentSessionId :=
                if st.currentSessionId = some sessionId then none
                else st.currentSessionId }
  else st

/-- Observation used by the theorems below: the first message with the
given id in the given session, if any (the message updateMessage targets). -/
def getMessage (st : ChatStore) (sessionId : Str) (messageId : Nat) : Option Message :=
  match alookup st.sessions sessionId with
  | none => none
  | some session => session.messages.find? (fun m => m.id == messageId)

/-! ### Simulated streaming (streamResponse in src/unnamed/part_010) -/

/-- Metadata argument of streamResponse: sources/confidence to attach. -/
structure RevealMeta where
  sources : Option (List QuerySource) := none
  confidence : Option Rat := none
deriving DecidableEq

/-- The cumulative texts built by streamResponse's loop
(currentText += (i === 0 ? '' : ' ') + words[i], one entry per word).
The Bool argument is the i === 0 test of the source. -/
def jsJoin : Bool → Str → List Str → List Str
  | _, _, [] => []
  | first, curr, w :: ws =>
      let c := curr ++ (if first then [] else [' ']) ++ w
      c :: jsJoin false c ws

/-- One loop iteration of streamResponse: an updateMessage carrying the
cumulative content plus the metadata, never touching isStreaming.  The
snapshot of the targeted message after the update is recorded in the
second component (the "trace"), so the sequence of observable message
states is part of the function's result. -/
def streamStep (sessionId : Str) (messageId : Nat) (meta : RevealMeta) (now : Nat)
    (acc : ChatStore × List (Option Message)) (s : Str) : ChatStore × List (Option Message) :=
  let st := updateMessage acc.1 sessionId messageId
    { content := some s, sources := some meta.sources, confidence := some meta.confidence } now
  (st, acc.2 ++ [getMessage st sessionId messageId])

/-- streamResponse(sessionId, messageId, text, metadata, delay): splits the
text on single spaces (text.split(' ')), issues one updateMessage per
cumulative word-prefix, then a final update that writes the full text and
isStreaming = false.  The artificial wordDelayMs pauses are pure waiting
and have no state effect, so they are elided.  Returns the final store and
the trace of message snapshots, one per update issued. -/
def streamResponse (st : ChatStore) (sessionId : Str) (messageId : Nat)
    (text : Str) (meta : RevealMeta) (now : Nat) : ChatStore × List (Option Message) :=
  match alookup st.sessions sessionId with
  | none => (st, [])
  | some _ =>
      let words := text.splitOn ' '
      let acc := (jsJoin true [] words).foldl (streamStep sessionId messageId meta now) (st, [])
      let st2 := updateMessage acc.1 sessionId messageId
        { content := some text, isStreaming := some (some false),
          sources := some meta.sources, confidence := some meta.confidence } now
      (st2, acc.2 ++ [getMessage st2 sessionId messageId])

/-! ### The external Query API (src/services/api.ts) and queryRAG -/

/-- Answer payload of a successful QueryResponse. -/
structure QueryAnswer where
  text : Str
  sources : List QuerySource
  confidence : Rat
deriving DecidableEq

/-- QueryResponse from src/services/api.ts. -/
structure QueryResponse where
  success : Bool
  answer : Option QueryAnswer := none
  query_time_ms : Option Nat := none
  total_results : Option Nat := none
  error : Option Str := none
  code : Option Str := none
deriving DecidableEq

/-- Outcome of awaiting ragAPI.queryDocuments: a resolved response, or a
thrown value (some msg when it is an Error with that message, none for a
non-Error throw, which queryRAG renders as "Unknown error"). -/
inductive QueryOutcome where
  | ok (resp : QueryResponse)
  | thrown (message : Option Str)
deriving DecidableEq

/-- JavaScript a || b for a string a: b when a is undefined or empty. -/
def jsOrStr (a : Option Str) (b : Str) : Str :=
  match a with
  | none => b
  | some s => if s = [] then b else s

/-- The error detail queryRAG interpolates into the error message on its
two failure paths. -/
def errDetail : QueryOutcome → Str
  | .ok resp => jsOrStr resp.error "Unable to process your question".toList
  | .thrown message => message.getD "Unknown error".toList

/-- queryRAG(sessionId, question, docId) from src/unnamed/part_010, the
ask operation.  The awaited ragAPI.queryDocuments outcome is the outcome
argument.  The source captures the session object before mutating it and
later reads session.messages.length through that live reference; the
embedding re-reads the session from the store at those points.  All paths
end by clearing isLoading (the finally block).  The Bool result records
whether streamResponse was invoked. -/
def queryRAG (st : ChatStore) (sessionId : Str) (question : Str)
    (docId : Option Str) (outcome : QueryOutcome) (now : Nat) : ChatStore × Bool :=
  match alookup st.sessions sessionId with
  | none => (st, false)
  | some session =>
      let st0 := { st with isLoading := true }
      let st1 := (addMessage st0 sessionId
        { content := question, isUser := true, timestamp := now } now).1
      let aiMessageId := ((alookup st1.sessions sessionId).getD session).messages.length
      let st2 := (addMessage st1 sessionId
        { content := [], isUser := false, timestamp := now, isStreaming := some true } now).1
      let result : ChatStore × Bool :=
        match outcome with
        | .ok resp =>
            match resp.answer, resp.success with
            | some answer, true =>
                ((streamResponse st2 sessionId aiMessageId answer.text
                    { sources := some answer.sources, confidence := some answer.confidence }
                    now).1, true)
            | _, _ =>
                (updateMessage st2 sessionId aiMessageId
                  { content := "I apologize, but I encountered an error: ".toList
                      ++ jsOrStr resp.error "Unable to process your question".toList,
                    isStreaming := some (some false) } now, false)
        | .thrown message =>
            let aiMessageId2 :=
              ((alookup st2.sessions sessionId).getD session).messages.length - 1
            (updateMessage st2 sessionId aiMessageId2
              { content :=
                  "I apologize, but I encountered an error while processing your question: ".toList
                    ++ message.getD "Unknown error".toList,
                isStreaming := some (some false) } now, false)
      ({ result.1 with isLoading := false }, result.2)

/-! ### Health monitor (src/store/apiStatus.ts) -/

/-- HealthResponse from src/services/api.ts. -/
structure HealthResponse where
  status : Str
  serviceApi : Str
  serviceQdrant : Str
  timestamp : Str
deriving DecidableEq

/-- Outcome of awaiting ragAPI.getHealth: a resolved response or a thrown
error.  The Bool of thrown records whether it is the network-unreachable
TypeError the source detects; it only changes which console line is
logged, never the state update. -/
inductive HealthOutcome where
  | ok (health : HealthResponse)
  | thrown (isNetworkError : Bool)
deriving DecidableEq

/-- The reactive state of the apiStatus store.  healthCheckIntervalActive
models whether the repeating setInterval timer handle is set; interval
values (JavaScript floats produced by Math.pow / Math.min on quantities
that stay exactly representable) are exact rationals. -/
structure ApiStatusState where
  isHealthy : Option Bool
  isLoading : Bool
  lastChecked : Option Nat
  checkCount : Nat
  healthCheckIntervalActive : Bool
  currentInterval : Rat
  failureCount : Nat
deriving DecidableEq

/-- INTERVALS.HEALTHY: 30 seconds when healthy. -/
def INTERVALS_HEALTHY : Rat := 30000

/-- INTERVALS.RECOVERING: 15 seconds when recovering from failure. -/
def INTERVALS_RECOVERING : Rat := 15000

/-- INTERVALS.FAILED: 1 minute when failed. -/
def INTERVALS_FAILED : Rat := 60000

/-- INTERVALS.MAX_BACKOFF: max 5 minutes. -/
def INTERVALS_MAX_BACKOFF : Rat := 300000

/-- The initial reactive state of the apiStatus store. -/
def ApiStatusState.init : ApiStatusState :=
  { isHealthy := none, isLoading := true, lastChecked := none, checkCount := 0,
    healthCheckIntervalActive := false, currentInterval := 30000, failureCount := 0 }

/-- checkHealth(force) from src/store/apiStatus.ts.  The awaited
ragAPI.getHealth outcome is the outcome argument, new Date() is now.  The
restartMonitoring calls only tear down and recreate the timer with the new
interval; they do not change any modelled field.  The function is total:
every outcome, including a thrown one, yields a state (the catch block),
and the finally block clears isLoading on every path. -/
def checkHealth (st : ApiStatusState) (force : Bool) (outcome : HealthOutcome)
    (now : Nat) : ApiStatusState :=
  let stL := if st.isHealthy.isNone || force then { st with isLoading := true } else st
  let stBody :=
    match outcome with
    | .ok health =>
        let newStatus := health.status == "healthy".toList
        if stL.isHealthy ≠ some newStatus ∨ stL.isHealthy = none then
          { stL with
              isHealthy := some newStatus, lastChecked := some now,
              checkCount := stL.checkCount + 1,
              failureCount := if newStatus then 0 else stL.failureCount + 1,
              currentInterval := if newStatus then INTERVALS_HEALTHY else INTERVALS_RECOVERING }
        else { stL with lastChecked := some now }
    | .thrown _ =>
        if stL.isHealthy ≠ some false ∨ stL.isHealthy = none then
          let failureCount2 := stL.failureCount + 1
          { stL with
              isHealthy := some false, lastChecked := some now,
              checkCount := stL.checkCount + 1,
              failureCount := failureCount2,
              currentInterval :=
                min (INTERVALS_FAILED * (3 / 2 : Rat) ^ (failureCount2 - 1))
                  INTERVALS_MAX_BACKOFF }
        else { stL with lastChecked := some now }
  { stBody with isLoading := false }

/-- markApiError from src/store/apiStatus.ts: fast-path flip to unhealthy
when an unrelated API call fails. -/
def markApiError (st : ApiStatusState) (now : Nat) : ApiStatusState :=
  if st.isHealthy ≠ some false then
    { st with isHealthy := some false, lastChecked := some now,
              checkCount := st.checkCount + 1 }
  else st

/-- startMonitoring from src/store/apiStatus.ts: clears any prior timer,
resets the interval and failure count, performs the initial check (whose
getHealth outcome is passed in), and installs the repeating timer. -/
def startMonitoring (st : ApiStatusState) (outcome : HealthOutcome)
    (now : Nat) : ApiStatusState :=
  let st0 := { st with healthCheckIntervalActive := false,
                       currentInterval := INTERVALS_HEALTHY, failureCount := 0 }
  let st1 := checkHealth st0 false outcome now
  { st1 with healthCheckIntervalActive := true }

/-- stopMonitoring from src/store/apiStatus.ts. -/
def stopMonitoring (st : ApiStatusState) : ApiStatusState :=
  { st with healthCheckIntervalActive := false }

/-! ### Derived definitions used by the statements -/

/-- A sequence of addMessage calls on one session, collecting the assigned
ids in call order (the observable of the spec's append operation). -/
def appendAll (st : ChatStore) (sessionId : Str) (ps : List NewMessage)
    (now : Nat) : ChatStore × List (Option Nat) :=
  match ps with
  | [] => (st, [])
  | p :: t =>
      let r := addMessage st sessionId p now
      let r2 := appendAll r.1 sessionId t now
      (r2.1, r.2 :: r2.2)

/-- The store invariant: the current-session pointer, when set, names a
session present in the session map. -/
def ChatStoreInv (st : ChatStore) : Prop :=
  st.currentSessionId.all (fun sid => (alookup st.sessions sid).isSome) = true

/-! ### Association-list lemmas -/

theorem alookup_ainsert_self {β : Type} (l : List (Str × β)) (k : Str) (v : β) :
    alookup (ainsert l k v) k = some v := by
  induction l with
  | nil => simp [ainsert, alookup]
  | cons p t ih =>
      obtain ⟨k', v'⟩ := p
      by_cases h : k' = k <;> simp [ainsert, alookup, h, ih]

theorem alookup_ainsert_ne {β : Type} (l : List (Str × β)) (k k' : Str) (v : β)
    (h : k ≠ k') : alookup (ainsert l k v) k' = alookup l k' := by
  induction l with
  | nil => simp [ainsert, alookup, h]
  | cons p t ih =>
      obtain ⟨k₀, v₀⟩ := p
      by_cases h₀ : k₀ = k
      · subst h₀; simp [ainsert, alookup, h]
      · simp [ainsert, alookup, h₀, ih]

theorem alookup_aerase_self {β : Type} (l : List (Str × β)) (k : Str) :
    alookup (aerase l k) k = none := by
  induction l with
  | nil => simp [aerase, alookup]
  | cons p t ih =>
      obtain ⟨k₀, v₀⟩ := p
      by_cases h₀ : k₀ = k <;> simp [aerase, alookup, h₀, ih]

theorem alookup_aerase_ne {β : Type} (l : List (Str × β)) (k k' : Str)
    (h : k ≠ k') : alookup (aerase l k) k' = alookup l k' := by
  induction l with
  | nil => simp [aerase, alookup]

  | cons p t ih =>
      obtain ⟨k₀, v₀⟩ := p
      by_cases h₀ : k₀ = k
      · subst h₀
        simp [aerase, alookup, ih, h]
      · simp [aerase, alookup, h₀, ih]

/-! ### Health monitor theorems -/

/-- C3: for every monitor state, when the Health API call inside
checkHealth throws, checkHealth resolves (the embedding of checkHealth is
a total function into states, mirroring the catch/finally structure that
never re-raises) and on resolution isHealthy is false. -/
theorem checkHealth_thrown_sets_unhealthy (st : ApiStatusState) (force : Bool)
    (isNetworkError : Bool) (now : Nat) :
    (checkHealth st force (.thrown isNetworkError) now).isHealthy = some false := by
  unfold checkHealth
  by_cases hL : st.isHealthy.isNone || force <;>
    simp only [hL, if_true, if_false] <;>
    by_cases hb : st.isHealthy ≠ some false ∨ st.isHealthy = none <;>
    simp_all

/-- C7: a checkHealth call that observes the same health status as
currently stored (in particular it is not the first check, the stored
status being non-null) changes none of isHealthy, checkCount,
failureCount and currentInterval, and only refreshes lastChecked. -/
theorem checkHealth_unchanged_status_frame (st : ApiStatusState) (force : Bool)
    (outcome : HealthOutcome) (now : Nat)
    (h : (∃ health, outcome = .ok health ∧
            st.isHealthy = some (health.status == "healthy".toList)) ∨
         (∃ isNetworkError, outcome = .thrown isNetworkError ∧
            st.isHealthy = some false)) :
    (checkHealth st force outcome now).isHealthy = st.isHealthy ∧
    (checkHealth st force outcome now).checkCount = st.checkCount ∧
    (checkHealth st force outcome now).failureCount = st.failureCount ∧
    (checkHealth st force outcome now).currentInterval = st.currentInterval ∧
    (checkHealth st force outcome now).lastChecked = some now := by
  rcases h with ⟨health, rfl, hst⟩ | ⟨isNetworkError, rfl, hst⟩ <;>
  · unfold checkHealth
    by_cases hL : st.isHealthy.isNone || force <;> simp_all

/-- Witness for C7 at a concrete state: a monitor that is already
unhealthy observes another thrown check; nothing but lastChecked moves. -/
theorem checkHealth_unchanged_status_frame_witness :
    ((∃ health, (HealthOutcome.thrown false) = .ok health ∧
        (some false : Option Bool) = some (health.status == "healthy".toList)) ∨
     (∃ isNetworkError, (HealthOutcome.thrown false) = .thrown isNetworkError ∧
        (some false : Option Bool) = some false)) ∧
    (checkHealth { isHealthy := some false, isLoading := false, lastChecked := some 1,
                   checkCount := 3, healthCheckIntervalActive := true,
                   currentInterval := 60000, failureCount := 1 } false (.thrown false) 7).isHealthy
      = some false := by
  refine ⟨Or.inr ⟨false, rfl, rfl⟩, ?_⟩
  exact (checkHealth_unchanged_status_frame
    { isHealthy := some false, isLoading := false, lastChecked := some 1,
      checkCount := 3, healthCheckIntervalActive := true,
      currentInterval := 60000, failureCount := 1 } false (.thrown false) 7
    (Or.inr ⟨false, rfl, rfl⟩)).1

/-- C1 (failing input): a freshly started monitor whose first check
reported healthy (schedule active, isHealthy = true), followed by three
consecutive checkHealth calls in which the Health API throws.  The claimed
value is min(60000 * 1.5 ^ 2, 300000) = 135000, but the code leaves
currentInterval at 60000: the backoff branch runs only on the transition
to unhealthy, and the later identical failures take the status-unchanged
branch, which never increments failureCount. -/
theorem checkHealth_three_failures_interval_is_60000 :
    (startMonitoring ApiStatusState.init
        (.ok { status := "healthy".toList, serviceApi := "healthy".toList,
               serviceQdrant := "healthy".toList, timestamp := [] })
        0).healthCheckIntervalActive = true ∧
    (startMonitoring ApiStatusState.init
        (.ok { status := "healthy".toList, serviceApi := "healthy".toList,
               serviceQdrant := "healthy".toList, timestamp := [] })
        0).isHealthy = some true ∧
    (checkHealth (checkHealth (checkHealth
        (startMonitoring ApiStatusState.init
          (.ok { status := "healthy".toList, serviceApi := "healthy".toList,
                 serviceQdrant := "healthy".toList, timestamp := [] })
          0)
        false (.thrown false) 1) false (.thrown false) 2) false (.thrown false) 3).currentInterval
      = 60000 ∧
    min (INTERVALS_FAILED * (3 / 2 : Rat) ^ 2) INTERVALS_MAX_BACKOFF = 135000 ∧
    (60000 : Rat) ≠ 135000 := by
  refine ⟨rfl, rfl, ?_, ?_, by norm_num⟩
  · simp [startMonitoring, checkHealth, ApiStatusState.init, INTERVALS_HEALTHY,
      INTERVALS_RECOVERING, INTERVALS_FAILED, INTERVALS_MAX_BACKOFF]
    norm_num [min_def]
  · norm_num [INTERVALS_FAILED, INTERVALS_MAX_BACKOFF, min_def]


/-! ### Conversation store: append id sequencing (C2) -/

/-- Unfolding addMessage on an existing session: the assigned id is the
length of the message sequence immediately before the append. -/
theorem addMessage_found_id (st : ChatStore) (sessionId : Str) (message : NewMessage)
    (now : Nat) (s : ChatSession) (h : alookup st.sessions sessionId = some s) :
    (addMessage st sessionId message now).2 = some s.messages.length := by
  simp [addMessage, h]

/-- Unfolding addMessage on an existing session: the session afterwards
holds the old messages plus one appended message carrying the assigned id. -/
theorem addMessage_found_lookup (st : ChatStore) (sessionId : Str) (message : NewMessage)
    (now : Nat) (s : ChatSession) (h : alookup st.sessions sessionId = some s) :
    alookup (addMessage st sessionId message now).1.sessions sessionId =
      some ({ s with
        messages := s.messages ++
          [({ id := s.messages.length, content := message.content,
              isUser := message.isUser, timestamp := message.timestamp,
              isStreaming := message.isStreaming, sources := message.sources,
              confidence := message.confidence } : Message)],
        updatedAt := now }) := by
  simp [addMessage, h, alookup_ainsert_self]

/-- The ids collected by a sequence of appends on an existing session are
consecutive, starting at the session's current length. -/
theorem appendAll_ids (ps : List NewMessage) :
    ∀ (st : ChatStore) (sessionId : Str) (now : Nat) (s : ChatSession),
      alookup st.sessions sessionId = some s →
      (appendAll st sessionId ps now).2 =
        (List.range' s.messages.length ps.length).map some := by
  induction ps with
  | nil => intro st sessionId now s h; simp [appendAll]
  | cons p t ih =>
      intro st sessionId now s h
      have hid := addMessage_found_id st sessionId p now s h
      have hlook := addMessage_found_lookup st sessionId p now s h
      have hrec := ih (addMessage st sessionId p now).1 sessionId now _ hlook
      simp only [appendAll, hid, hrec]
      simp [List.range'_succ]

/-- After a sequence of appends on an existing session, the session is
still present and its length has grown by the number of appends. -/
theorem appendAll_length (ps : List NewMessage) :
    ∀ (st : ChatStore) (sessionId : Str) (now : Nat) (s : ChatSession),
      alookup st.sessions sessionId = some s →
      ∃ s2, alookup (appendAll st sessionId ps now).1.sessions sessionId = some s2 ∧
        s2.messages.length = s.messages.length + ps.length := by
  induction ps with
  | nil => intro st sessionId now s h; exact ⟨s, by simpa [appendAll] using h, by simp⟩
  | cons p t ih =>
      intro st sessionId now s h
      have hlook := addMessage_found_lookup st sessionId p now s h
      obtain ⟨s2, hs2, hlen⟩ := ih (addMessage st sessionId p now).1 sessionId now _ hlook
      refine ⟨s2, by simpa [appendAll] using hs2, ?_⟩
      simp at hlen ⊢
      omega

/-- C2: on a session freshly created with no initial question, the ids
returned by a sequence of append calls are exactly 0, 1, 2, ... in call
order, and after any number k of appends the session holds exactly k
messages — so each append's id equals the length of the message sequence
immediately before that append. -/
theorem appendAll_ids_from_empty_session (st0 : ChatStore) (sessionId : Str)
    (now0 now : Nat) (ps : List NewMessage) :
    (appendAll (createSession st0 sessionId now0 none).1 sessionId ps now).2 =
      (List.range ps.length).map some ∧
    ∀ k, k ≤ ps.length →
      (alookup (appendAll (createSession st0 sessionId now0 none).1 sessionId
          (ps.take k) now).1.sessions sessionId).map (fun s => s.messages.length) = some k := by
  have hlook : alookup (createSession st0 sessionId now0 none).1.sessions sessionId =
      some { id := sessionId, messages := [], createdAt := now0, updatedAt := now0 } := by
    simp [createSession, strTruthy, alookup_ainsert_self]
  constructor
  · rw [appendAll_ids ps _ sessionId now _ hlook]
    simp [List.range_eq_range']
  · intro k hk
    obtain ⟨s2, hs2, hlen⟩ := appendAll_length (ps.take k) _ sessionId now _ hlook
    rw [hs2]
    simp at hlen
    simp [hlen, Nat.min_eq_left hk]

/-- Witness for C2: two appends on a fresh session return ids 0 then 1,
and after one append the session holds exactly one message. -/
theorem appendAll_ids_from_empty_session_witness :
    (appendAll (createSession ChatStore.init "s1".toList 0 none).1 "s1".toList
        [{ content := "a".toList, isUser := true, timestamp := 1 },
         { content := "b".toList, isUser := false, timestamp := 2 }] 3).2 =
      (List.range 2).map some ∧
    (1 ≤ 2 ∧
      (alookup (appendAll (createSession ChatStore.init "s1".toList 0 none).1 "s1".toList
          ([{ content := "a".toList, isUser := true, timestamp := 1 },
            { content := "b".toList, isUser := false, timestamp := 2 }].take 1) 3).1.sessions
          "s1".toList).map (fun s => s.messages.length) = some 1) := by
  refine ⟨(appendAll_ids_from_empty_session ChatStore.init "s1".toList 0 3
    [{ content := "a".toList, isUser := true, timestamp := 1 },
     { content := "b".toList, isUser := false, timestamp := 2 }]).1,
    by decide,
    (appendAll_ids_from_empty_session ChatStore.init "s1".toList 0 3
    [{ content := "a".toList, isUser := true, timestamp := 1 },
     { content := "b".toList, isUser := false, timestamp := 2 }]).2 1 (by decide)⟩

/-! ### clearSession and createSession (C8, C9) -/

/-- C8: clearSession on an existing session removes it; if it was the
current session the current-session pointer becomes none, and otherwise
the pointer is left unchanged. -/
theorem clearSession_removes_and_updates_pointer (st : ChatStore) (sessionId : Str)
    (h : (alookup st.sessions sessionId).isSome = true) :
    alookup (clearSession st sessionId).sessions sessionId = none ∧
    (st.currentSessionId = some sessionId →
      (clearSession st sessionId).currentSessionId = none) ∧
    (st.currentSessionId ≠ some sessionId →
      (clearSession st sessionId).currentSessionId = st.currentSessionId) := by
  unfold clearSession
  refine ⟨by simp [h, alookup_aerase_self], ?_, ?_⟩ <;> intro h2 <;> simp [h, h2]

/-- Witness for C8 at a concrete store: clearing the current session of a
two-session store empties the pointer. -/
theorem clearSession_removes_and_updates_pointer_witness :
    ((alookup (ChatStore.mk
        [("a".toList, { id := "a".toList, messages := [], createdAt := 0, updatedAt := 0 }),
         ("b".toList, { id := "b".toList, messages := [], createdAt := 0, updatedAt := 0 })]
        (some "a".toList) false).sessions "a".toList).isSome = true) ∧
    (clearSession (ChatStore.mk
        [("a".toList, { id := "a".toList, messages := [], createdAt := 0, updatedAt := 0 }),
         ("b".toList, { id := "b".toList, messages := [], createdAt := 0, updatedAt := 0 })]
        (some "a".toList) false) "a".toList).currentSessionId = none := by
  refine ⟨by decide, ?_⟩
  exact (clearSession_removes_and_updates_pointer _ "a".toList (by decide)).2.1 rfl

/-- C9: createSession with a non-empty initial question creates a session
holding exactly one message (id 0, the question, from the user) and makes
it current.  createSession takes no Query API outcome and leaves exactly
this one message, which is the formal counterpart of "createSession does
not itself invoke the Query API". -/
theorem createSession_with_question (st0 : ChatStore) (sessionId : Str)
    (now : Nat) (q : Str) (hq : q ≠ []) :
    (createSession st0 sessionId now (some q)).2 = sessionId ∧
    alookup (createSession st0 sessionId now (some q)).1.sessions sessionId =
      some { id := sessionId,
             messages := [{ id := 0, content := q, isUser := true, timestamp := now }],
             createdAt := now, updatedAt := now } ∧
    (createSession st0 sessionId now (some q)).1.currentSessionId = some sessionId := by
  refine ⟨rfl, ?_, rfl⟩
  simp [createSession, strTruthy, hq, alookup_ainsert_self]

/-- Witness for C9 with the question of the spec's scenario. -/
theorem createSession_with_question_witness :
    ("What is DoksAI?".toList ≠ []) ∧
    alookup (createSession ChatStore.init "s1".toList 4
        (some "What is DoksAI?".toList)).1.sessions "s1".toList =
      some { id := "s1".toList,
             messages := [{ id := 0, content := "What is DoksAI?".toList,
                            isUser := true, timestamp := 4 }],
             createdAt := 4, updatedAt := 4 } := by
  refine ⟨by decide, ?_⟩
  exact (createSession_with_question ChatStore.init "s1".toList 4
    "What is DoksAI?".toList (by decide)).2.1

/-! ### Store invariant (C10) -/

theorem alookup_ainsert_isSome {β : Type} (l : List (Str × β)) (k k' : Str) (v : β)
    (h : (alookup l k').isSome = true) : (alookup (ainsert l k v) k').isSome = true := by
  by_cases hk : k = k'
  · subst hk; simp [alookup_ainsert_self]
  · rwa [alookup_ainsert_ne l k k' v hk]

/-- Transfer of the invariant along an operation that keeps the pointer
and does not drop sessions. -/
theorem chatStoreInv_mono (st st' : ChatStore)
    (hcur : st'.currentSessionId = st.currentSessionId)
    (hdom : ∀ k, (alookup st.sessions k).isSome = true →
      (alookup st'.sessions k).isSome = true) :
    ChatStoreInv st → ChatStoreInv st' := by
  unfold ChatStoreInv
  rw [hcur]
  cases st.currentSessionId with
  | none => simp
  | some sid => simp only [Option.all_some]; exact hdom sid

theorem addMessage_currentSessionId (st : ChatStore) (sessionId : Str)
    (message : NewMessage) (now : Nat) :
    (addMessage st sessionId message now).1.currentSessionId = st.currentSessionId := by
  unfold addMessage
  cases alookup st.sessions sessionId <;> rfl

theorem addMessage_dom (st : ChatStore) (sessionId : Str) (message : NewMessage)
    (now : Nat) (k : Str) (h : (alookup st.sessions k).isSome = true) :
    (alookup (addMessage st sessionId message now).1.sessions k).isSome = true := by
  unfold addMessage
  cases hs : alookup st.sessions sessionId with
  | none => exact h
  | some s => exact alookup_ainsert_isSome _ _ _ _ h

theorem updateMessage_currentSessionId (st : ChatStore) (sessionId : Str)
    (messageId : Nat) (updates : MessageUpdate) (now : Nat) :
    (updateMessage st sessionId messageId updates now).currentSessionId =
      st.currentSessionId := by
  unfold updateMessage
  cases alookup st.sessions sessionId with
  | none => rfl
  | some s => by_cases hf : (s.messages.find? (fun m => m.id == messageId)).isSome <;> simp [hf]

theorem updateMessage_dom (st : ChatStore) (sessionId : Str) (messageId : Nat)
    (updates : MessageUpdate) (now : Nat) (k : Str)
    (h : (alookup st.sessions k).isSome = true) :
    (alookup (updateMessage st sessionId messageId updates now).sessions k).isSome = true := by
  unfold updateMessage
  cases hs : alookup st.sessions sessionId with
  | none => exact h
  | some s =>
      by_cases hf : (s.messages.find? (fun m => m.id == messageId)).isSome <;> simp [hf]
      · exact alookup_ainsert_isSome _ _ _ _ h
      · exact h

theorem streamFold_currentSessionId (sessionId : Str) (messageId : Nat)
    (meta : RevealMeta) (now : Nat) (snaps : List Str) :
    ∀ acc : ChatStore × List (Option Message),
      ((snaps.foldl (streamStep sessionId messageId meta now) acc).1.currentSessionId =
        acc.1.currentSessionId) := by
  induction snaps with
  | nil => intro acc; rfl
  | cons s t ih =>
      intro acc
      rw [List.foldl_cons, ih]
      exact updateMessage_currentSessionId _ _ _ _ _

theorem streamFold_dom (sessionId : Str) (messageId : Nat)
    (meta : RevealMeta) (now : Nat) (snaps : List Str) :
    ∀ (acc : ChatStore × List (Option Message)) (k : Str),
      (alookup acc.1.sessions k).isSome = true →
      (alookup (snaps.foldl (streamStep sessionId messageId meta now) acc).1.sessions
        k).isSome = true := by
  induction snaps with
  | nil => intro acc k h; exact h
  | cons s t ih =>
      intro acc k h
      rw [List.foldl_cons]
      exact ih _ k (updateMessage_dom _ _ _ _ _ _ h)

theorem streamResponse_currentSessionId (st : ChatStore) (sessionId : Str)
    (messageId : Nat) (text : Str) (meta : RevealMeta) (now : Nat) :
    (streamResponse st sessionId messageId text meta now).1.currentSessionId =
      st.currentSessionId := by
  unfold streamResponse
  cases alookup st.sessions sessionId with
  | none => rfl
  | some s =>
      simp only
      rw [updateMessage_currentSessionId, streamFold_currentSessionId]

theorem streamResponse_dom (st : ChatStore) (sessionId : Str) (messageId : Nat)
    (text : Str) (meta : RevealMeta) (now : Nat) (k : Str)
    (h : (alookup st.sessions k).isSome = true) :
    (alookup (streamResponse st sessionId messageId text meta now).1.sessions
      k).isSome = true := by
  unfold streamResponse
  cases alookup st.sessions sessionId with
  | none => exact h
  | some s =>
      simp only
      exact updateMessage_dom _ _ _ _ _ _ (streamFold_dom _ _ _ _ _ _ _ h)

theorem queryRAG_currentSessionId (st : ChatStore) (sessionId : Str) (question : Str)
    (docId : Option Str) (outcome : QueryOutcome) (now : Nat) :
    (queryRAG st sessionId question docId outcome now).1.currentSessionId =
      st.currentSessionId := by
  unfold queryRAG
  cases alookup st.sessions sessionId with
  | none => rfl
  | some s =>
      simp only
      cases outcome with
      | ok resp =>
          cases hans : resp.answer with
          | none =>
              simp only [hans]
              cases resp.success <;>
                simp [updateMessage_currentSessionId, addMessage_currentSessionId]
          | some answer =>
              simp only [hans]
              cases resp.success <;>
                simp [updateMessage_currentSessionId, addMessage_currentSessionId,
                  streamResponse_currentSessionId]
      | thrown message =>
          simp [updateMessage_currentSessionId, addMessage_currentSessionId]

theorem queryRAG_dom (st : ChatStore) (sessionId : Str) (question : Str)
    (docId : Option Str) (outcome : QueryOutcome) (now : Nat) (k : Str)
    (h : (alookup st.sessions k).isSome = true) :
    (alookup (queryRAG st sessionId question docId outcome now).1.sessions
      k).isSome = true := by
  unfold queryRAG
  cases alookup st.sessions sessionId with
  | none => exact h
  | some s =>
      simp only
      have h1 := addMessage_dom { st with isLoading := true } sessionId
        { content := question, isUser := true, timestamp := now } now k h
      cases outcome with
      | ok resp =>
          cases hans : resp.answer with
          | none =>
              simp only [hans]
              cases resp.success <;>
                simp <;> exact updateMessage_dom _ _ _ _ _ _ (addMessage_dom _ _ _ _ _ h1)
          | some answer =>
              simp only [hans]
              cases resp.success <;> simp
              · exact updateMessage_dom _ _ _ _ _ _ (addMessage_dom _ _ _ _ _ h1)
              · exact streamResponse_dom _ _ _ _ _ _ _ (addMessage_dom _ _ _ _ _ h1)
      | thrown message =>
          simp
          exact updateMessage_dom _ _ _ _ _ _ (addMessage_dom _ _ _ _ _ h1)

/-- C10: the current-session pointer is none or names a session present in
the session map; every store operation preserves this invariant, and
setCurrentSession with an unknown id is a complete no-op. -/
theorem chatStoreInv_preserved (st : ChatStore) (h : ChatStoreInv st) :
    (∀ sessionId now q, ChatStoreInv (createSession st sessionId now q).1) ∧
    (∀ sessionId, ChatStoreInv (setCurrentSession st sessionId)) ∧
    (∀ sessionId message now, ChatStoreInv (addMessage st sessionId message now).1) ∧
    (∀ sessionId messageId updates now,
      ChatStoreInv (updateMessage st sessionId messageId updates now)) ∧
    (∀ sessionId, ChatStoreInv (clearSession st sessionId)) ∧
    (∀ sessionId messageId text meta now,
      ChatStoreInv (streamResponse st sessionId messageId text meta now).1) ∧
    (∀ sessionId question docId outcome now,
      ChatStoreInv (queryRAG st sessionId question docId outcome now).1) ∧
    (∀ sessionId, alookup st.sessions sessionId = none →
      setCurrentSession st sessionId = st) := by
  refine ⟨?_, ?_, ?_, ?_, ?_, ?_, ?_, ?_⟩
  · intro sessionId now q
    unfold ChatStoreInv createSession
    simp [alookup_ainsert_self]
  · intro sessionId
    unfold setCurrentSession
    by_cases hs : (alookup st.sessions sessionId).isSome = true
    · unfold ChatStoreInv
      simp [hs]
    · simpa [hs] using h
  · intro sessionId message now
    exact chatStoreInv_mono st _ (addMessage_currentSessionId st sessionId message now)
      (addMessage_dom st sessionId message now) h
  · intro sessionId messageId updates now
    exact chatStoreInv_mono st _
      (updateMessage_currentSessionId st sessionId messageId updates now)
      (updateMessage_dom st sessionId messageId updates now) h
  · intro sessionId
    unfold clearSession
    by_cases hs : (alookup st.sessions sessionId).isSome = true
    · by_cases hcur : st.currentSessionId = some sessionId
      · unfold ChatStoreInv
        simp [hs, hcur]
      · unfold ChatStoreInv at h ⊢
        simp only [hs, if_true, hcur, if_false]
        cases hc : st.currentSessionId with
        | none => simp
        | some k =>
            simp only [Option.all_some]
            have hk : sessionId ≠ k := fun he => hcur (by rw [hc, he])
            rw [alookup_aerase_ne _ _ _ hk]
            simpa [hc] using h
    · simpa [hs] using h
  · intro sessionId messageId text meta now
    exact chatStoreInv_mono st _
      (streamResponse_currentSessionId st sessionId messageId text meta now)
      (streamResponse_dom st sessionId messageId text meta now) h
  · intro sessionId question docId outcome now
    exact chatStoreInv_mono st _
      (queryRAG_currentSessionId st sessionId question docId outcome now)
      (queryRAG_dom st sessionId question docId outcome now) h
  · intro sessionId hnone
    unfold setCurrentSession
    simp [hnone]

/-- Witness for C10: a store holding one session with another session
current satisfies the invariant, and setCurrentSession with an unknown id
leaves it untouched. -/
theorem chatStoreInv_preserved_witness :
    ChatStoreInv (ChatStore.mk
      [("a".toList, { id := "a".toList, messages := [], createdAt := 0, updatedAt := 0 })]
      (some "a".toList) false) ∧
    (alookup (ChatStore.mk
      [("a".toList, { id := "a".toList, messages := [], createdAt := 0, updatedAt := 0 })]
      (some "a".toList) false).sessions "zz".toList = none) ∧
    setCurrentSession (ChatStore.mk
      [("a".toList, { id := "a".toList, messages := [], createdAt := 0, updatedAt := 0 })]
      (some "a".toList) false) "zz".toList =
      ChatStore.mk
        [("a".toList, { id := "a".toList, messages := [], createdAt := 0, updatedAt := 0 })]
        (some "a".toList) false := by
  refine ⟨by rfl, by decide, ?_⟩
  exact (chatStoreInv_preserved _ (by rfl)).2.2.2.2.2.2.2 "zz".toList (by decide)

/-! ### Streaming reveal lemmas (C5, C6) -/

theorem find?_updateFirst {α : Type} (p : α → Bool) (f : α → α)
    (hf : ∀ x, p x = true → p (f x) = true) :
    ∀ l : List α, (updateFirst p f l).find? p = (l.find? p).map f := by
  intro l
  induction l with
  | nil => rfl
  | cons x xs ih =>
      by_cases hp : p x = true
      · simp [updateFirst, hp, List.find?_cons_of_pos, hf x hp]
      · have hp2 : p x = false := by simpa using hp
        simp [updateFirst, hp2, List.find?_cons_of_neg, ih]

/-- Updating a message and then reading it back: the read sees the merged
message; reading a missing session or message yields none on both sides.
Requires that the update does not touch the id field (no call site does). -/
theorem getMessage_updateMessage (st : ChatStore) (sessionId : Str) (messageId : Nat)
    (u : MessageUpdate) (now : Nat) (hu : u.id = none) :
    getMessage (updateMessage st sessionId messageId u now) sessionId messageId =
      (getMessage st sessionId messageId).map (fun m => applyUpdate m u) := by
  have hpres : ∀ m : Message, (m.id == messageId) = true →
      ((applyUpdate m u).id == messageId) = true := by
    intro m hm
    simpa [applyUpdate, hu] using hm
  unfold getMessage updateMessage
  cases hs : alookup st.sessions sessionId with
  | none => simp [hs]
  | some s =>
      by_cases hf : (s.messages.find? (fun m => m.id == messageId)).isSome = true
      · simp only [hs, hf, if_true]
        rw [alookup_ainsert_self]
        exact find?_updateFirst _ _ hpres s.messages
      · have hnone : s.messages.find? (fun m => m.id == messageId) = none := by
          cases hx : s.messages.find? (fun m => m.id == messageId) with
          | none => rfl
          | some y => exact absurd (by simp [hx]) hf
        simp [hs, hf, hnone]

/-- Every snapshot recorded by the word-reveal loop is the targeted
message immediately after one of the loop's updates, whose content is the
cumulative text passed to that update. -/
theorem streamFold_mem (sessionId : Str) (messageId : Nat) (meta : RevealMeta)
    (now : Nat) :
    ∀ (snaps : List Str) (st : ChatStore) (tr : List (Option Message)) (m : Message),
      getMessage st sessionId messageId = some m →
      ∀ om ∈ (snaps.foldl (streamStep sessionId messageId meta now) (st, tr)).2,
        om ∈ tr ∨ ∃ mm s, om = some mm ∧ s ∈ snaps ∧ mm.content = s := by
  intro snaps
  induction snaps with
  | nil => intro st tr m hm om hom; exact Or.inl hom
  | cons s ss ih =>
      intro st tr m hm om hom
      rw [List.foldl_cons] at hom
      have hget : getMessage (updateMessage st sessionId messageId { content := some s, sources := some meta.sources, confidence := some meta.confidence } now) sessionId messageId = some (applyUpdate m { content := some s, sources := some meta.sources, confidence := some meta.confidence }) := by
        rw [getMessage_updateMessage st sessionId messageId _ now rfl, hm]
        rfl
      have hrec := ih _ _ _ hget om (by simpa [streamStep] using hom)
      rcases hrec with hin | ⟨mm, s2, hom2, hs2, hc⟩
      · rcases List.mem_append.mp hin with hin2 | hin2
        · exact Or.inl hin2
        · refine Or.inr ⟨applyUpdate m { content := some s, sources := some meta.sources, confidence := some meta.confidence }, s, ?_, List.mem_cons_self s ss, rfl⟩
          simpa [hget] using List.mem_singleton.mp hin2
      · exact Or.inr ⟨mm, s2, hom2, List.mem_cons_of_mem s hs2, hc⟩

/-- The targeted message survives the word-reveal loop. -/
theorem streamFold_getMessage (sessionId : Str) (messageId : Nat) (meta : RevealMeta)
    (now : Nat) :
    ∀ (snaps : List Str) (st : ChatStore) (tr : List (Option Message)) (m : Message),
      getMessage st sessionId messageId = some m →
      ∃ m2, getMessage
        (snaps.foldl (streamStep sessionId messageId meta now) (st, tr)).1
        sessionId messageId = some m2 := by
  intro snaps
  induction snaps with
  | nil => intro st tr m hm; exact ⟨m, hm⟩
  | cons s ss ih =>
      intro st tr m hm
      rw [List.foldl_cons]
      have hget : getMessage (updateMessage st sessionId messageId { content := some s, sources := some meta.sources, confidence := some meta.confidence } now) sessionId messageId = some (applyUpdate m { content := some s, sources := some meta.sources, confidence := some meta.confidence }) := by
        rw [getMessage_updateMessage st sessionId messageId _ now rfl, hm]
        rfl
      exact ih _ _ _ hget

theorem intercalate_single (sep w : Str) : List.intercalate sep [w] = w := by
  simp [List.intercalate]

theorem intercalate_cons_cons (sep w w2 : Str) (ws : List Str) :
    List.intercalate sep (w :: w2 :: ws) = w ++ sep ++ List.intercalate sep (w2 :: ws) := by
  simp [List.intercalate, List.intersperse, List.append_assoc]

/-- Every cumulative text built by the loop after the first word is the
whole remaining sentence or stops immediately before one of its spaces. -/
theorem mem_jsJoin_false :
    ∀ (ws : List Str) (curr s : Str), s ∈ jsJoin false curr ws →
      s = curr ++ ' ' :: List.intercalate [' '] ws ∨
      ∃ r, curr ++ ' ' :: List.intercalate [' '] ws = s ++ ' ' :: r := by
  intro ws
  induction ws with
  | nil => intro curr s h; simp [jsJoin] at h
  | cons w ws2 ih =>
      intro curr s h
      simp only [jsJoin, List.mem_cons] at h
      cases ws2 with
      | nil =>
          rcases h with h | h
          · left
            rw [h, intercalate_single]
            simp
          · simp [jsJoin] at h
      | cons w2 ws3 =>
          have hT : curr ++ ' ' :: List.intercalate [' '] (w :: w2 :: ws3) =
              (curr ++ ' ' :: w) ++ ' ' :: List.intercalate [' '] (w2 :: ws3) := by
            rw [intercalate_cons_cons]
            simp
          rcases h with h | h
          · right
            refine ⟨List.intercalate [' '] (w2 :: ws3), ?_⟩
            rw [hT, h]
            simp
          · have := ih (curr ++ [' '] ++ w) s h
            rcases this with h2 | ⟨r, h2⟩
            · left
              rw [hT, h2]
              simp
            · right
              refine ⟨r, ?_⟩
              rw [hT, ← h2]
              simp

/-- Every cumulative text built by the reveal loop from its start is the
whole sentence or stops immediately before one of its spaces. -/
theorem mem_jsJoin_true (words : List Str) (s : Str) (h : s ∈ jsJoin true [] words) :
    s = List.intercalate [' '] words ∨
    ∃ r, List.intercalate [' '] words = s ++ ' ' :: r := by
  cases words with
  | nil => simp [jsJoin] at h
  | cons w ws =>
      simp only [jsJoin, List.nil_append, List.mem_cons] at h
      cases ws with
      | nil =>
          rcases h with h | h
          · left; rw [intercalate_single]; simpa using h
          · simp [jsJoin] at h
      | cons w2 ws2 =>
          have hT : List.intercalate [' '] (w :: w2 :: ws2) =
              w ++ ' ' :: List.intercalate [' '] (w2 :: ws2) := by
            rw [intercalate_cons_cons]
            simp
          rcases h with h | h
          · right
            exact ⟨List.intercalate [' '] (w2 :: ws2), by rw [hT, h]; simp⟩
          · have := mem_jsJoin_false (w2 :: ws2) w s h
            rcases this with h2 | ⟨r, h2⟩
            · left; rw [hT, h2]
            · right; exact ⟨r, by rw [hT, ← h2]⟩

/-- C6: reveal never splits inside a word.  For any final text, any
session and any targeted message, every message snapshot produced by
streamResponse is the message carrying a content that either equals the
full final text or is the text cut immediately before one of its space
characters (so every snapshot is a whitespace-boundary cut of the final
text). -/
theorem streamResponse_word_boundary (st : ChatStore) (sessionId : Str)
    (messageId : Nat) (text : Str) (meta : RevealMeta) (now : Nat) (m : Message)
    (h : getMessage st sessionId messageId = some m) :
    ∀ om ∈ (streamResponse st sessionId messageId text meta now).2,
      ∃ mm, om = some mm ∧
        (mm.content = text ∨ ∃ r, text = mm.content ++ ' ' :: r) := by
  intro om hom
  have hs : ∃ s0, alookup st.sessions sessionId = some s0 := by
    unfold getMessage at h
    cases hx : alookup st.sessions sessionId with
    | none => rw [hx] at h; exact absurd h (by simp)
    | some s0 => exact ⟨s0, rfl⟩
  obtain ⟨s0, hs0⟩ := hs
  unfold streamResponse at hom
  rw [hs0] at hom
  simp only [List.mem_append, List.mem_singleton] at hom
  obtain ⟨m2, hm2⟩ := streamFold_getMessage sessionId messageId meta now
    (jsJoin true [] (text.splitOn ' ')) st [] m h
  rcases hom with hom | hom
  · have := streamFold_mem sessionId messageId meta now
      (jsJoin true [] (text.splitOn ' ')) st [] m h om hom
    rcases this with hin | ⟨mm, s2, hom2, hs2, hc⟩
    · simp at hin
    · refine ⟨mm, hom2, ?_⟩
      have hb := mem_jsJoin_true (text.splitOn ' ') s2 hs2
      rw [List.intercalate_splitOn text ' '] at hb
      rw [hc]
      exact hb
  · have hfin : getMessage (updateMessage ((jsJoin true [] (text.splitOn ' ')).foldl (streamStep sessionId messageId meta now) (st, [])).1 sessionId messageId { content := some text, isStreaming := some (some false), sources := some meta.sources, confidence := some meta.confidence } now) sessionId messageId = some (applyUpdate m2 { content := some text, isStreaming := some (some false), sources := some meta.sources, confidence := some meta.confidence }) := by
      rw [getMessage_updateMessage _ sessionId messageId _ now rfl, hm2]
      rfl
    refine ⟨applyUpdate m2 { content := some text, isStreaming := some (some false), sources := some meta.sources, confidence := some meta.confidence }, ?_, Or.inl rfl⟩
    rw [hom]
    exact hfin

/-- Witness for C6: on a concrete session holding a streaming placeholder,
the first snapshot of revealing "ab cd" is the message with content "ab",
which indeed cuts immediately before the text's space. -/
theorem streamResponse_word_boundary_witness :
    (getMessage (addMessage (createSession ChatStore.init "s1".toList 0 none).1 "s1".toList { content := [], isUser := false, timestamp := 0, isStreaming := some true } 0).1 "s1".toList 0 = some { id := 0, content := [], isUser := false, timestamp := 0, isStreaming := some true }) ∧
    (some ({ id := 0, content := "ab".toList, isUser := false, timestamp := 0, isStreaming := some true } : Message) ∈
      (streamResponse (addMessage (createSession ChatStore.init "s1".toList 0 none).1 "s1".toList { content := [], isUser := false, timestamp := 0, isStreaming := some true } 0).1 "s1".toList 0 "ab cd".toList {} 1).2) ∧
    ∃ mm, some ({ id := 0, content := "ab".toList, isUser := false, timestamp := 0, isStreaming := some true } : Message) = some mm ∧
      (mm.content = "ab cd".toList ∨ ∃ r, "ab cd".toList = mm.content ++ ' ' :: r) := by
  refine ⟨by decide, by decide, ?_⟩
  exact streamResponse_word_boundary (addMessage (createSession ChatStore.init "s1".toList 0 none).1 "s1".toList { content := [], isUser := false, timestamp := 0, isStreaming := some true } 0).1 "s1".toList 0 "ab cd".toList {} 1 { id := 0, content := [], isUser := false, timestamp := 0, isStreaming := some true } (by decide)
    (some { id := 0, content := "ab".toList, isUser := false, timestamp := 0, isStreaming := some true }) (by decide)

/-- C5: revealing the final text "Hello world foo" into an existing
message that is currently streaming produces the message-content
snapshots "Hello", "Hello world", "Hello world foo" in that order (the
final update repeats the last content), with isStreaming true after every
update except the last one, after which it is false. -/
theorem streamResponse_hello_world_foo (st : ChatStore) (sessionId : Str)
    (messageId : Nat) (meta : RevealMeta) (now : Nat) (m : Message)
    (h : getMessage st sessionId messageId = some m)
    (hstream : m.isStreaming = some true) :
    ((streamResponse st sessionId messageId "Hello world foo".toList meta now).2.map
        (Option.map (fun mm => (mm.content, mm.isStreaming)))) =
      [some ("Hello".toList, some true),
       some ("Hello world".toList, some true),
       some ("Hello world foo".toList, some true),
       some ("Hello world foo".toList, some false)] ∧
    ((streamResponse st sessionId messageId "Hello world foo".toList meta now).2.filterMap
        (fun om => om.map Message.content)).dedup =
      ["Hello".toList, "Hello world".toList, "Hello world foo".toList] := by
  have hs : ∃ s0, alookup st.sessions sessionId = some s0 := by
    unfold getMessage at h
    cases hx : alookup st.sessions sessionId with
    | none => rw [hx] at h; exact absurd h (by simp)
    | some s0 => exact ⟨s0, rfl⟩
  obtain ⟨s0, hs0⟩ := hs
  have hjs : jsJoin true [] (("Hello world foo".toList).splitOn ' ') =
      ["Hello".toList, "Hello world".toList, "Hello world foo".toList] := by decide
  constructor
  · unfold streamResponse
    rw [hs0]
    simp only [hjs, List.foldl_cons, List.foldl_nil, streamStep]
    simp [getMessage_updateMessage, h, applyUpdate, hstream]
  · unfold streamResponse
    rw [hs0]
    simp only [hjs, List.foldl_cons, List.foldl_nil, streamStep]
    simp [getMessage_updateMessage, h, applyUpdate]

/-- Witness for C5 on a concrete session holding a streaming placeholder
message. -/
theorem streamResponse_hello_world_foo_witness :
    (getMessage (addMessage (createSession ChatStore.init "s1".toList 0 none).1 "s1".toList { content := [], isUser := false, timestamp := 0, isStreaming := some true } 0).1 "s1".toList 0 = some { id := 0, content := [], isUser := false, timestamp := 0, isStreaming := some true }) ∧
    (({ id := 0, content := [], isUser := false, timestamp := 0, isStreaming := some true } : Message).isStreaming = some true) ∧
    ((streamResponse (addMessage (createSession ChatStore.init "s1".toList 0 none).1 "s1".toList { content := [], isUser := false, timestamp := 0, isStreaming := some true } 0).1 "s1".toList 0 "Hello world foo".toList {} 1).2.map
        (Option.map (fun mm => (mm.content, mm.isStreaming)))) =
      [some ("Hello".toList, some true),
       some ("Hello world".toList, some true),
       some ("Hello world foo".toList, some true),
       some ("Hello world foo".toList, some false)] := by
  refine ⟨by decide, by decide, ?_⟩
  exact (streamResponse_hello_world_foo (addMessage (createSession ChatStore.init "s1".toList 0 none).1 "s1".toList { content := [], isUser := false, timestamp := 0, isStreaming := some true } 0).1 "s1".toList 0 {} 1 { id := 0, content := [], isUser := false, timestamp := 0, isStreaming := some true } (by decide) rfl).1

/-- C4: when the Query API reports failure (success = false) or throws,
queryRAG resolves (the embedding is a total function, mirroring the
try/catch/finally structure), streamResponse is never invoked, and the
placeholder assistant message (the message at id = length of the session
plus one, counting the freshly appended user message) ends with
isStreaming = false and a content that starts with the apology and ends
with the error detail. -/
theorem queryRAG_failure_writes_apology (st : ChatStore) (sessionId : Str)
    (question : Str) (docId : Option Str) (outcome : QueryOutcome) (now : Nat)
    (s : ChatSession) (hs : alookup st.sessions sessionId = some s)
    (hids : ∀ m ∈ s.messages, m.id < s.messages.length)
    (herr : (∃ resp, outcome = .ok resp ∧ resp.success = false) ∨
            (∃ message, outcome = .thrown message)) :
    (queryRAG st sessionId question docId outcome now).2 = false ∧
    ∃ mm, getMessage (queryRAG st sessionId question docId outcome now).1 sessionId
        (s.messages.length + 1) = some mm ∧
      mm.isStreaming = some false ∧
      (∃ rest, mm.content = "I apologize, but I encountered an error".toList ++ rest) ∧
      (∃ pre, mm.content = pre ++ errDetail outcome) := by
  have hsL : alookup ({ st with isLoading := true } : ChatStore).sessions sessionId = some s := hs
  have h1 := addMessage_found_lookup { st with isLoading := true } sessionId
    { content := question, isUser := true, timestamp := now } now s hsL
  have h2 := addMessage_found_lookup
    (addMessage { st with isLoading := true } sessionId
      { content := question, isUser := true, timestamp := now } now).1 sessionId
    { content := [], isUser := false, timestamp := now, isStreaming := some true } now _ h1
  dsimp only at h1 h2
  simp only [List.length_append, List.length_cons, List.length_nil] at h2
  have hgm2 : getMessage
      (addMessage
        (addMessage { st with isLoading := true } sessionId
          { content := question, isUser := true, timestamp := now } now).1 sessionId
        { content := [], isUser := false, timestamp := now, isStreaming := some true } now).1
      sessionId (s.messages.length + 1) =
      some { id := s.messages.length + 1, content := [], isUser := false, timestamp := now,
             isStreaming := some true, sources := none, confidence := none } := by
    unfold getMessage
    rw [h2]
    dsimp only
    rw [List.find?_append, List.find?_append]
    have hn0 : s.messages.find? (fun m => m.id == s.messages.length + 1) = none := by
      rw [List.find?_eq_none]
      intro x hx
      have := hids x hx
      simp only [beq_iff_eq]
      omega
    have hn1 : List.find? (fun m => m.id == s.messages.length + 1)
        [({ id := s.messages.length, content := question, isUser := true, timestamp := now,
            isStreaming := none, sources := none, confidence := none } : Message)] = none := by
      rw [List.find?_eq_none]
      intro x hx
      rw [List.mem_singleton.mp hx]
      simp only [beq_iff_eq]
      omega
    rw [hn0, hn1]
    simp
  have hmk : ∀ (x : ChatStore) (cur : Option Str) (b : Bool) (mid : Nat),
      getMessage { sessions := x.sessions, currentSessionId := cur, isLoading := b }
        sessionId mid = getMessage x sessionId mid := fun _ _ _ _ => rfl
  have hw1 : ("I apologize, but I encountered an error: ".toList : Str) =
      "I apologize, but I encountered an error".toList ++ ": ".toList := by decide
  have hw2 : ("I apologize, but I encountered an error while processing your question: ".toList : Str) =
      "I apologize, but I encountered an error".toList ++
        " while processing your question: ".toList := by decide
  unfold queryRAG
  rw [hs]
  dsimp only
  simp only [h1, h2]
  dsimp only [Option.getD_some]
  simp only [List.length_append, List.length_cons, List.length_nil, Nat.zero_add,
    Nat.add_sub_cancel]
  rcases herr with ⟨resp, rfl, hsucc⟩ | ⟨message, rfl⟩
  · obtain ⟨rsuccess, ranswer, rqtm, rtotal, rerror, rcode⟩ := resp
    dsimp only at hsucc
    subst hsucc
    cases ranswer with
    | none =>
        dsimp only
        refine ⟨rfl, ?_⟩
        rw [hmk, getMessage_updateMessage _ _ _ _ _ rfl, hgm2]
        refine ⟨_, rfl, rfl, ?_, ?_⟩
        · refine ⟨": ".toList ++ jsOrStr rerror "Unable to process your question".toList, ?_⟩
          dsimp only [applyUpdate, Option.getD_some]
          rw [hw1, List.append_assoc]
        · refine ⟨"I apologize, but I encountered an error: ".toList, ?_⟩
          dsimp only [applyUpdate, Option.getD_some, errDetail]
    | some a =>
        dsimp only
        refine ⟨rfl, ?_⟩
        rw [hmk, getMessage_updateMessage _ _ _ _ _ rfl, hgm2]
        refine ⟨_, rfl, rfl, ?_, ?_⟩
        · refine ⟨": ".toList ++ jsOrStr rerror "Unable to process your question".toList, ?_⟩
          dsimp only [applyUpdate, Option.getD_some]
          rw [hw1, List.append_assoc]
        · refine ⟨"I apologize, but I encountered an error: ".toList, ?_⟩
          dsimp only [applyUpdate, Option.getD_some, errDetail]
  · dsimp only
    refine ⟨rfl, ?_⟩
    rw [hmk, getMessage_updateMessage _ _ _ _ _ rfl, hgm2]
    refine ⟨_, rfl, rfl, ?_, ?_⟩
    · refine ⟨" while processing your question: ".toList ++
        message.getD "Unknown error".toList, ?_⟩
      dsimp only [applyUpdate, Option.getD_some]
      rw [hw2, List.append_assoc]
    · refine ⟨"I apologize, but I encountered an error while processing your question: ".toList, ?_⟩
      dsimp only [applyUpdate, Option.getD_some, errDetail]

/-- Witness for C4: a thrown Query API error on a fresh session leaves the
placeholder with isStreaming = false and an apology message carrying the
thrown message. -/
theorem queryRAG_failure_writes_apology_witness :
    (alookup (createSession ChatStore.init "s1".toList 0 none).1.sessions "s1".toList =
      some { id := "s1".toList, messages := [], createdAt := 0, updatedAt := 0 }) ∧
    (∀ m ∈ ({ id := "s1".toList, messages := [], createdAt := 0, updatedAt := 0 } : ChatSession).messages,
      m.id < ({ id := "s1".toList, messages := [], createdAt := 0, updatedAt := 0 } : ChatSession).messages.length) ∧
    ((queryRAG (createSession ChatStore.init "s1".toList 0 none).1 "s1".toList "q".toList none
        (.thrown (some "boom".toList)) 7).2 = false ∧
      ∃ mm, getMessage (queryRAG (createSession ChatStore.init "s1".toList 0 none).1 "s1".toList
          "q".toList none (.thrown (some "boom".toList)) 7).1 "s1".toList
          (({ id := "s1".toList, messages := [], createdAt := 0, updatedAt := 0 } : ChatSession).messages.length + 1) = some mm ∧
        mm.isStreaming = some false ∧
        (∃ rest, mm.content = "I apologize, but I encountered an error".toList ++ rest) ∧
        (∃ pre, mm.content = pre ++ errDetail (.thrown (some "boom".toList)))) := by
  refine ⟨by decide, by simp, ?_⟩
  exact queryRAG_failure_writes_apology (createSession ChatStore.init "s1".toList 0 none).1
    "s1".toList "q".toList none (.thrown (some "boom".toList)) 7
    { id := "s1".toList, messages := [], createdAt := 0, updatedAt := 0 }
    (by decide) (by simp) (Or.inr ⟨some "boom".toList, rfl⟩)
